import Mathlib

/-!
Verification of the task-event translation core of the `nmt-fastapi-a2a`
orchestration service.

The development shallowly embeds the code paths under scrutiny:

- `src/app/agents/director/agent.py`, `DirectorAgent.stream` — the chunk
  content extraction loop (lines 178-190) and the surrounding
  selection / transport error handling (lines 134-211);
- `src/app/agents/director/agent_executor.py` and
  `src/app/agents/widgets/agent_executor.py` — the update-to-event
  translation loop of `execute` (the two loops are textually identical)
  and the `cancel` methods.

Untyped Python dict payloads (`chunk.model_dump(...)`) are embedded as a
JSON-like inductive `Value` with Python truthiness and `dict.get`
semantics; `str(...)` on such payloads is embedded as `pyRepr`, mirroring
the Python textual form of dict/list/bool/str/None values.  Asynchronous
generators are embedded as the lists of items they yield, and a raised
exception is embedded as an `Except.error` / `Option` carrying the
exception text.
-/

/-- JSON-like values, embedding the untyped Python payloads produced by
`chunk.model_dump(mode="json", exclude_none=True)`.  `null` stands for
Python `None` (and in particular for the result of a failed dict lookup). -/
inductive Value where
  | null : Value
  | bool (b : Bool) : Value
  | str (s : String) : Value
  | arr (xs : List Value) : Value
  | obj (kvs : List (String × Value)) : Value

/-- Python `d.get(k)`: the value of the first binding of `k` when the
receiver is a dict containing `k`, and `None` otherwise.  (A non-dict
receiver is treated as having no keys; in the embedded code every receiver
of `.get` is a dict.) -/
def Value.get : Value → String → Value
  | .obj kvs, k =>
    match kvs.find? (fun kv => kv.1 == k) with
    | some kv => kv.2
    | none => .null
  | _, _ => .null

/-- Python truthiness of an embedded value: `None` is falsy, a bool is
itself, a string / list / dict is truthy when non-empty. -/
def Value.truthy : Value → Bool
  | .null => false
  | .bool b => b
  | .str s => !(s == "")
  | .arr xs => !xs.isEmpty
  | .obj kvs => !kvs.isEmpty

/-- View of a value as a Python list for iteration; a non-list (in the
embedded code: an absent `parts` key, defaulted to `[]` by
`artifact.get("parts", [])`) iterates as empty. -/
def Value.asList : Value → List Value
  | .arr xs => xs
  | _ => []

mutual

/-- Python `str(...)` / `repr(...)` of a payload value: `None`, `True`,
`False`, quoted strings, bracketed lists and braced dicts, embedding the
`str(chunk_dict)` fallback of `agent.py` line 190. -/
def pyRepr : Value → String
  | .null => "None"
  | .bool b => if b then "True" else "False"
  | .str s => "'" ++ s ++ "'"
  | .arr xs => "[" ++ pyReprElems xs ++ "]"
  | .obj kvs => "\x7b" ++ pyReprItems kvs ++ "\x7d"

/-- Comma-joined reprs of the elements of a Python list. -/
def pyReprElems : List Value → String
  | [] => ""
  | [v] => pyRepr v
  | v :: vs => pyRepr v ++ ", " ++ pyReprElems vs

/-- Comma-joined `'key': value` reprs of the items of a Python dict. -/
def pyReprItems : List (String × Value) → String
  | [] => ""
  | [(k, v)] => "'" ++ k ++ "': " ++ pyRepr v
  | (k, v) :: kvs => "'" ++ k ++ "': " ++ pyRepr v ++ ", " ++ pyReprItems kvs

end

/-- Python `str(...)` as used by f-string interpolation: a string formats
as itself, any other value formats as its repr. -/
def pyStr : Value → String
  | .str s => s
  | v => pyRepr v

/-- The test `part.get("kind") == "text"` of `agent.py` line 186: only a
string value equals the Python string literal. -/
def isTextKind : Value → Bool
  | .str s => s == "text"
  | _ => false

/-- The guard of the part-scanning loop, `agent.py` line 186:
`part.get("kind") == "text" and part.get("text")`. -/
def validTextPart (part : Value) : Bool :=
  isTextKind (part.get ("kind")) && (part.get ("text")).truthy

/-- The `for part in parts: ... break` loop of `agent.py` lines 185-188:
the `text` value of the first part satisfying the guard, if any. -/
def firstTextValue : List Value → Option Value
  | [] => none
  | part :: parts =>
    if validTextPart part then some (part.get ("text"))
    else firstTextValue parts

/-- One iteration of the chunk loop of `DirectorAgent.stream`
(`agent.py` lines 178-190), threading the `content` accumulator:
when `result` and `result.get("lastChunk")` are truthy, scan
`result.get("artifact")` for a first valid text part; when the resulting
content is falsy, fall back to `str(chunk_dict)`. -/
def chunkStep (content : Value) (chunkDict : Value) : Value :=
  let result := chunkDict.get ("result")
  if result.truthy && (result.get ("lastChunk")).truthy then
    let artifact := result.get ("artifact")
    let content1 :=
      if artifact.truthy then
        match firstTextValue ((artifact.get ("parts")).asList) with
        | some v => v
        | none => content
      else content
    if content1.truthy then content1 else .str (pyRepr chunkDict)
  else content

/-- The spec's `extract_content` contract (§4.1): the content extracted
from a single chunk, i.e. one `chunkStep` from the initial `content = ""`
of `agent.py` line 172. -/
def extractContent (chunk : Value) : Value :=
  chunkStep (.str "") chunk

/-- The whole chunk loop of `agent.py` lines 178-190 over the sequence of
chunks yielded by the downstream stream. -/
def extractLoop (chunks : List Value) : Value :=
  List.foldl chunkStep (.str "") chunks

/-- The three-field status records yielded by `DirectorAgent.stream` and
consumed by the executors (spec §3, StreamUpdate). -/
structure StreamUpdate where
  is_task_complete : Bool
  require_user_input : Bool
  content : String
deriving DecidableEq, Repr

/-- `AgentSelectionResult` of `agent.py`: agent id plus reasoning. -/
structure AgentSelectionResult where
  agent_id : String
  reasoning : String

/-- The update yielded at `agent.py` lines 147-151 before any other work. -/
def workingUpdate : StreamUpdate :=
  { is_task_complete := false, require_user_input := false,
    content := "Processing request..." }

/-- The error update yielded by both `except` handlers of
`DirectorAgent.stream` (`agent.py` lines 193-197 and 207-211). -/
def errorUpdate (e : String) : StreamUpdate :=
  { is_task_complete := false, require_user_input := true,
    content := "Error processing request: " ++ e }

/-- `DirectorAgent.stream` (`agent.py` lines 134-211), embedded as the
list of updates the generator yields.  `selection` is the outcome of
`self._select_agent(query)` (`Except.error e` embeds the call raising an
exception whose `str` is `e`); `chunks` are the payload dicts delivered by
`send_message_streaming` before it finishes or raises; `transportError`
is `some e` when the transport call or its iteration raises after those
chunks.  The `assert a2a_client is not None` of line 162 raises an
`AssertionError` whose text is `"Unknown agent_id: " ++ id`; like a
selection failure it is caught by the outer handler. -/
def DirectorAgent.stream (initialized : Bool)
    (selection : Except String AgentSelectionResult)
    (chunks : List Value) (transportError : Option String) :
    List StreamUpdate :=
  if !initialized then
    [{ is_task_complete := false, require_user_input := true,
       content := "Agent initialization failed." }]
  else
    workingUpdate ::
      match selection with
      | .error e => [errorUpdate e]
      | .ok choice =>
        if choice.agent_id == "WidgetsAgent" then
          let content := extractLoop chunks
          (match transportError with
            | some e => [errorUpdate e]
            | none => []) ++
          [{ is_task_complete := true, require_user_input := false,
             content := "Agent " ++ choice.agent_id ++ " response: " ++
               pyStr content ++ "." }]
        else
          [errorUpdate ("Unknown agent_id: " ++ choice.agent_id)]

/-- The a2a `TaskState` values used by the executors. -/
inductive TaskState where
  | working : TaskState
  | input_required : TaskState
  | completed : TaskState
deriving DecidableEq, Repr

/-- The protocol events enqueued by the `execute` loops: a
`TaskStatusUpdateEvent` (state, optional message text, `final` flag) or a
`TaskArtifactUpdateEvent` (`append`, `last_chunk`, artifact name,
description and text), each tagged with the context and task ids. -/
inductive ProtocolEvent where
  | statusUpdate (state : TaskState) (message : Option String) (final : Bool)
      (contextId taskId : String) : ProtocolEvent
  | artifactUpdate (append lastChunk : Bool) (name description text : String)
      (contextId taskId : String) : ProtocolEvent
deriving DecidableEq, Repr

/-- The `TaskState` derived from an update by the `if not is_task_complete
and not require_user_input / elif require_user_input / else` branching of
`DirectorAgentExecutor.execute` (`agent_executor.py` lines 78-112) and of
the textually identical `MCPAgentExecutor.execute`. -/
def deriveTaskState (u : StreamUpdate) : TaskState :=
  if !u.is_task_complete && !u.require_user_input then .working
  else if u.require_user_input then .input_required
  else .completed

/-- The body of the `async for` loop of `DirectorAgentExecutor.execute`
(`agent_executor.py` lines 67-134) and of the textually identical
`MCPAgentExecutor.execute`: the events enqueued for one update. -/
def translateUpdate (contextId taskId : String) (u : StreamUpdate) :
    List ProtocolEvent :=
  if !u.is_task_complete && !u.require_user_input then
    [.statusUpdate .working (some u.content) false contextId taskId]
  else if u.require_user_input then
    [.statusUpdate .input_required (some u.content) true contextId taskId]
  else
    [.artifactUpdate false true ("current_result") ("Result of request to agent.")
       u.content contextId taskId,
     .statusUpdate .completed none true contextId taskId]

/-- The whole `async for` loop of `execute`: the events enqueued for a
stream of updates, in order. -/
def executeLoop (contextId taskId : String) (updates : List StreamUpdate) :
    List ProtocolEvent :=
  (updates.map (translateUpdate contextId taskId)).flatten

/-- The request context handed to an executor (user input plus the ids of
the current task). -/
structure RequestContext where
  userInput : String
  contextId : String
  taskId : String

/-- `DirectorAgentExecutor.cancel` (`agent_executor.py` lines 136-147):
raises `Exception("cancel not supported")` before touching the event
queue; the pair returned is the raised error together with the queue,
which is left exactly as it was. -/
def DirectorAgentExecutor.cancel (context : RequestContext)
    (eventQueue : List ProtocolEvent) :
    Except String Unit × List ProtocolEvent :=
  (.error ("cancel not supported"), eventQueue)

/-- `MCPAgentExecutor.cancel` (`widgets/agent_executor.py` lines 130-141):
raises `Exception("cancel not supported")` before touching the event
queue. -/
def MCPAgentExecutor.cancel (context : RequestContext)
    (eventQueue : List ProtocolEvent) :
    Except String Unit × List ProtocolEvent :=
  (.error ("cancel not supported"), eventQueue)

/-- `pat` occurs as a contiguous substring of `s`. -/
def ContainsSub (s pat : String) : Prop :=
  ∃ a b : List Char, s.data = a ++ (pat.data ++ b)

theorem containsSub_self (s : String) : ContainsSub s s :=
  ⟨[], [], by simp⟩

theorem containsSub_trans {s m p : String}
    (h1 : ContainsSub s m) (h2 : ContainsSub m p) : ContainsSub s p := by
  obtain ⟨a, b, hab⟩ := h1
  obtain ⟨c, d, hcd⟩ := h2
  exact ⟨a ++ c, d ++ b, by rw [hab, hcd]; simp⟩

theorem containsSub_append_left {s t p : String}
    (h : ContainsSub s p) : ContainsSub (t ++ s) p := by
  obtain ⟨a, b, hab⟩ := h
  exact ⟨t.data ++ a, b, by rw [String.data_append, hab]; simp⟩

theorem containsSub_append_right {s t p : String}
    (h : ContainsSub s p) : ContainsSub (s ++ t) p := by
  obtain ⟨a, b, hab⟩ := h
  exact ⟨a, b ++ t.data, by rw [String.data_append, hab]; simp⟩

theorem truthy_of_get_truthy {v : Value} {k : String}
    (h : (v.get k).truthy = true) : v.truthy = true := by
  cases v with
  | obj kvs =>
    cases hf : kvs.find? (fun kv => kv.1 == k) with
    | none => simp [Value.get, hf, Value.truthy] at h
    | some kv =>
      have hm := List.mem_of_find?_eq_some hf
      cases kvs with
      | nil => cases hm
      | cons a l => simp [Value.truthy]
  | null => simp [Value.get, Value.truthy] at h
  | bool b => simp [Value.get, Value.truthy] at h
  | str s => simp [Value.get, Value.truthy] at h
  | arr xs => simp [Value.get, Value.truthy] at h

theorem get_truthy_mem {v : Value} {k : String}
    (h : (v.get k).truthy = true) :
    ∃ kvs, v = .obj kvs ∧ (k, v.get k) ∈ kvs := by
  cases v with
  | obj kvs =>
    refine ⟨kvs, rfl, ?_⟩
    cases hf : kvs.find? (fun kv => kv.1 == k) with
    | none => simp [Value.get, hf, Value.truthy] at h
    | some kv =>
      have hm := List.mem_of_find?_eq_some hf
      have hp := List.find?_some hf
      have hk : kv.1 = k := by simpa using hp
      have hget : Value.get (.obj kvs) k = kv.2 := by simp [Value.get, hf]
      rw [hget, ← hk]
      exact hm
  | null => simp [Value.get, Value.truthy] at h
  | bool b => simp [Value.get, Value.truthy] at h
  | str s => simp [Value.get, Value.truthy] at h
  | arr xs => simp [Value.get, Value.truthy] at h

theorem containsSub_pyReprItems {k : String} {v : Value} :
    ∀ {kvs : List (String × Value)}, (k, v) ∈ kvs →
      ContainsSub (pyReprItems kvs) ("'" ++ k ++ "': " ++ pyRepr v) := by
  intro kvs hm
  induction kvs with
  | nil => cases hm
  | cons hd tl ih =>
    obtain ⟨hk, hv⟩ := hd
    rcases List.mem_cons.mp hm with heq | htail
    · injection heq with h1 h2
      subst h1
      subst h2
      cases tl with
      | nil => exact containsSub_self _
      | cons hd2 tl2 =>
        show ContainsSub ("'" ++ k ++ "': " ++ pyRepr v ++ ", " ++ pyReprItems (hd2 :: tl2)) _
        exact containsSub_append_right (containsSub_append_right (containsSub_self _))
    · cases tl with
      | nil => cases htail
      | cons hd2 tl2 =>
        show ContainsSub ("'" ++ hk ++ "': " ++ pyRepr hv ++ ", " ++ pyReprItems (hd2 :: tl2)) _
        exact containsSub_append_left (ih htail)

theorem containsSub_pyRepr_entry {kvs : List (String × Value)} {k : String} {v : Value}
    (hm : (k, v) ∈ kvs) :
    ContainsSub (pyRepr (.obj kvs)) ("'" ++ k ++ "': " ++ pyRepr v) := by
  rw [pyRepr]
  exact containsSub_append_right (containsSub_append_left (containsSub_pyReprItems hm))

theorem containsSub_entry_key (k : String) (v : Value) :
    ContainsSub ("'" ++ k ++ "': " ++ pyRepr v) k :=
  containsSub_append_right
    (containsSub_append_right (containsSub_append_left (containsSub_self k)))

theorem containsSub_entry_value (k : String) (v : Value) :
    ContainsSub ("'" ++ k ++ "': " ++ pyRepr v) (pyRepr v) :=
  containsSub_append_left (containsSub_self (pyRepr v))

/-- A truthy key lookup witnesses the key's name inside the dict's repr. -/
theorem containsSub_pyRepr_key {v : Value} {k : String}
    (h : (v.get k).truthy = true) : ContainsSub (pyRepr v) k := by
  obtain ⟨kvs, rfl, hm⟩ := get_truthy_mem h
  exact containsSub_trans (containsSub_pyRepr_entry hm) (containsSub_entry_key _ _)

/-- A truthy two-level lookup witnesses the inner key's name inside the
outer dict's repr. -/
theorem containsSub_pyRepr_nested_key {v : Value} {k1 k2 : String}
    (h : ((v.get k1).get k2).truthy = true) : ContainsSub (pyRepr v) k2 := by
  have h1 : (v.get k1).truthy = true := truthy_of_get_truthy h
  obtain ⟨kvs, hv, hm⟩ := get_truthy_mem h1
  have hinner : ContainsSub (pyRepr (v.get k1)) k2 := containsSub_pyRepr_key h
  have houter : ContainsSub (pyRepr v) (pyRepr (v.get k1)) := by
    rw [hv] at hm ⊢
    exact containsSub_trans (containsSub_pyRepr_entry hm) (containsSub_entry_value _ _)
  exact containsSub_trans houter hinner

theorem pyRepr_obj_ne_empty (kvs : List (String × Value)) :
    pyRepr (.obj kvs) ≠ "" := by
  intro h
  have hd : (pyRepr (.obj kvs)).data = [] := by rw [h]
  have he : (pyRepr (.obj kvs)).data =
      ("\x7b" : String).data ++ ((pyReprItems kvs).data ++ ("\x7d" : String).data) := by
    rw [pyRepr, String.data_append, String.data_append]
    simp
  rw [he] at hd
  have hbrace : ("\x7b" : String).data = ['\x7b'] := rfl
  rw [hbrace] at hd
  cases hd

theorem firstTextValue_of_first_valid {pre : List Value} {p : Value} (post : List Value)
    (hpre : ∀ q ∈ pre, validTextPart q = false)
    (hp : validTextPart p = true) :
    firstTextValue (pre ++ p :: post) = some (p.get ("text")) := by
  induction pre with
  | nil => simp [firstTextValue, hp]
  | cons a l ih =>
    have ha : validTextPart a = false := hpre a (List.mem_cons_self a l)
    rw [List.cons_append, firstTextValue, ha]
    simp only [Bool.false_eq_true, if_false]
    exact ih (fun q hq => hpre q (List.mem_cons_of_mem a hq))

theorem firstTextValue_none {parts : List Value}
    (h : ∀ q ∈ parts, validTextPart q = false) :
    firstTextValue parts = none := by
  induction parts with
  | nil => rfl
  | cons a l ih =>
    rw [firstTextValue, h a (List.mem_cons_self a l)]
    simp only [Bool.false_eq_true, if_false]
    exact ih (fun q hq => h q (List.mem_cons_of_mem a hq))

theorem truthy_of_asList_ne_nil {v : Value} (h : v.asList ≠ []) :
    v.truthy = true := by
  cases v <;> simp [Value.asList, Value.truthy] at h ⊢
  exact h

/-- Claim C1: for every chunk payload where `result.lastChunk` is truthy
and `result.artifact.parts` contains at least one part with kind `"text"`
and a non-empty text string, the content extracted for that chunk is
exactly the text of the first such part: all parts before it fail the
guard, and any later qualifying parts are ignored because iteration stops
at the first valid text part. -/
theorem extractContent_returns_first_valid_text
    (chunk : Value) (pre post : List Value) (p : Value) (t : String)
    (hlast : ((chunk.get ("result")).get ("lastChunk")).truthy = true)
    (hparts : (((chunk.get ("result")).get ("artifact")).get ("parts")).asList
        = pre ++ p :: post)
    (hpre : ∀ q ∈ pre, validTextPart q = false)
    (hkind : isTextKind (p.get ("kind")) = true)
    (htext : p.get ("text") = Value.str t)
    (hne : t ≠ "") :
    extractContent chunk = Value.str t := by
  have hres : (chunk.get ("result")).truthy = true := truthy_of_get_truthy hlast
  have hplist : (((chunk.get ("result")).get ("artifact")).get ("parts")).asList ≠ [] := by
    rw [hparts]; simp
  have hart : ((chunk.get ("result")).get ("artifact")).truthy = true :=
    truthy_of_get_truthy (truthy_of_asList_ne_nil hplist)
  have hvalid : validTextPart p = true := by
    simp [validTextPart, hkind, htext, Value.truthy, hne]
  have hfirst := firstTextValue_of_first_valid post hpre hvalid
  simp only [extractContent, chunkStep, hres, hlast, hart, hparts, hfirst, htext,
    Bool.and_self, if_true]
  simp [Value.truthy, hne]

/-- Claim C1 witness: a payload whose nested artifact holds an image part
followed by a text part extracts the text of the text part. -/
theorem extractContent_returns_first_valid_text_witness :
    extractContent (Value.obj [("result", Value.obj [("lastChunk", Value.bool true),
        ("artifact", Value.obj [("parts", Value.arr
          [Value.obj [("kind", Value.str ("image")), ("url", Value.str ("x"))],
           Value.obj [("kind", Value.str ("text")), ("text", Value.str ("second"))]])])])]) =
      Value.str ("second") :=
  extractContent_returns_first_valid_text
    (Value.obj [("result", Value.obj [("lastChunk", Value.bool true),
        ("artifact", Value.obj [("parts", Value.arr
          [Value.obj [("kind", Value.str ("image")), ("url", Value.str ("x"))],
           Value.obj [("kind", Value.str ("text")), ("text", Value.str ("second"))]])])])])
    [Value.obj [("kind", Value.str ("image")), ("url", Value.str ("x"))]] []
    (Value.obj [("kind", Value.str ("text")), ("text", Value.str ("second"))])
    ("second") rfl rfl
    (fun q hq => by rw [List.mem_singleton.mp hq]; rfl)
    rfl rfl (by decide)

/-- Claim C2 counterexample: for the update stream
`[{input_required, "need more"}, {working, "tail"}]` the translation loop
emits a working status event AFTER the terminal input-required event, so
an input-required update does not terminate event emission for updates
that follow it. -/
theorem input_required_does_not_stop_translation_cex :
    executeLoop ("c") ("t")
      [{ is_task_complete := false, require_user_input := true, content := "need more" },
       { is_task_complete := false, require_user_input := false, content := "tail" }] =
      [ProtocolEvent.statusUpdate TaskState.input_required
         (some ("need more")) true ("c") ("t"),
       ProtocolEvent.statusUpdate TaskState.working (some ("tail")) false ("c") ("t")] ∧
    1 < (executeLoop ("c") ("t")
      [{ is_task_complete := false, require_user_input := true, content := "need more" },
       { is_task_complete := false, require_user_input := false, content := "tail" }]).length := by
  exact ⟨rfl, by decide⟩

/-- Claim C2 (amended): an update requiring user input yields exactly one
status-update event with `final = true` carrying the content; the loop
does not break there, so events for later updates are still emitted — and
for the one-element stream `[{input_required, c}]` exactly one terminal
status event is emitted with nothing after it, because the stream ends. -/
theorem input_required_single_final_event
    (cid tid : String) (b : Bool) (c : String) (rest : List StreamUpdate) :
    executeLoop cid tid
        ({ is_task_complete := b, require_user_input := true, content := c } :: rest) =
      ProtocolEvent.statusUpdate TaskState.input_required (some c) true cid tid ::
        executeLoop cid tid rest ∧
    executeLoop cid tid [{ is_task_complete := b, require_user_input := true, content := c }] =
      [ProtocolEvent.statusUpdate TaskState.input_required (some c) true cid tid] := by
  constructor <;> simp [executeLoop, translateUpdate]

/-- Claim C3 counterexample: when the transport raises on the first
streaming call (no chunks delivered), the request produces FOUR outward
events, not one: the initial working status event, the error-carrying
terminal status event, and then an artifact event and a completed status
event from the fall-through completion yield of `DirectorAgent.stream`. -/
theorem transport_failure_not_single_event_cex :
    executeLoop ("c") ("t")
        (DirectorAgent.stream true (Except.ok ⟨"WidgetsAgent", "w"⟩) [] (some ("boom"))) =
      [ProtocolEvent.statusUpdate TaskState.working
         (some ("Processing request...")) false ("c") ("t"),
       ProtocolEvent.statusUpdate TaskState.input_required
         (some ("Error processing request: boom")) true ("c") ("t"),
       ProtocolEvent.artifactUpdate false true ("current_result")
         ("Result of request to agent.") ("Agent WidgetsAgent response: .") ("c") ("t"),
       ProtocolEvent.statusUpdate TaskState.completed none true ("c") ("t")] ∧
    (executeLoop ("c") ("t")
        (DirectorAgent.stream true (Except.ok ⟨"WidgetsAgent", "w"⟩) []
          (some ("boom")))).length = 4 := by
  exact ⟨rfl, rfl⟩

/-- Claim C3 (amended): when the downstream transport raises on the first
streaming call, the error is surfaced as a status event marked final whose
message contains "Error processing request" and the exception text, but it
is neither the only event nor the last: the working event precedes it and,
because the generator falls through to its completion yield, an artifact
event and a completed status event follow it — four events in total. -/
theorem transport_failure_event_sequence (cid tid e r : String) :
    executeLoop cid tid
        (DirectorAgent.stream true (Except.ok ⟨"WidgetsAgent", r⟩) [] (some e)) =
      [ProtocolEvent.statusUpdate TaskState.working
         (some ("Processing request...")) false cid tid,
       ProtocolEvent.statusUpdate TaskState.input_required
         (some ("Error processing request: " ++ e)) true cid tid,
       ProtocolEvent.artifactUpdate false true ("current_result")
         ("Result of request to agent.") ("Agent WidgetsAgent response: .") cid tid,
       ProtocolEvent.statusUpdate TaskState.completed none true cid tid] := by
  rfl

/-- Claim C4 counterexample: a payload whose `result` has a truthy
`lastChunk` but no `artifact`, while a valid text part sits in a top-level
`artifact`, does NOT extract that part's text: the code never consults the
top-level artifact and falls back to the serialized payload. -/
theorem top_level_artifact_not_used_cex :
    extractContent (Value.obj [("result", Value.obj [("lastChunk", Value.bool true)]),
        ("artifact", Value.obj [("parts", Value.arr
          [Value.obj [("kind", Value.str ("text")), ("text", Value.str ("hello"))]])])]) ≠
      Value.str ("hello") ∧
    extractContent (Value.obj [("result", Value.obj [("lastChunk", Value.bool true)]),
        ("artifact", Value.obj [("parts", Value.arr
          [Value.obj [("kind", Value.str ("text")), ("text", Value.str ("hello"))]])])]) =
      Value.str (pyRepr (Value.obj [("result", Value.obj [("lastChunk", Value.bool true)]),
        ("artifact", Value.obj [("parts", Value.arr
          [Value.obj [("kind", Value.str ("text")), ("text", Value.str ("hello"))]])])])) := by
  constructor
  · intro h
    rw [show extractContent (Value.obj [("result", Value.obj [("lastChunk", Value.bool true)]),
        ("artifact", Value.obj [("parts", Value.arr
          [Value.obj [("kind", Value.str ("text")), ("text", Value.str ("hello"))]])])]) =
      Value.str (pyRepr (Value.obj [("result", Value.obj [("lastChunk", Value.bool true)]),
        ("artifact", Value.obj [("parts", Value.arr
          [Value.obj [("kind", Value.str ("text")), ("text", Value.str ("hello"))]])])])) from rfl] at h
    injection h with hs
    exact absurd hs (by decide)
  · rfl

/-- Claim C4 (amended): only `result.artifact` is ever consulted when
locating the artifact; the top-level `chunk.artifact` is never read.  For
any payload whose `result.lastChunk` is truthy and whose `result.artifact`
is absent or falsy, extraction returns the serialization of the whole
payload regardless of any top-level artifact (so when both are present the
nested one is trivially the one used). -/
theorem top_level_artifact_ignored
    (chunk : Value)
    (hlast : ((chunk.get ("result")).get ("lastChunk")).truthy = true)
    (hnoart : ((chunk.get ("result")).get ("artifact")).truthy = false) :
    extractContent chunk = Value.str (pyRepr chunk) := by
  have hres : (chunk.get ("result")).truthy = true := truthy_of_get_truthy hlast
  simp only [extractContent, chunkStep, hres, hlast, hnoart, Bool.and_self, if_true]
  simp [Value.truthy]

/-- Claim C4 witness: the amended theorem applied to a payload that does
carry a valid top-level artifact text part — extraction still falls back
to the serialized payload. -/
theorem top_level_artifact_ignored_witness :
    extractContent (Value.obj [("result", Value.obj [("lastChunk", Value.bool true)]),
        ("artifact", Value.obj [("parts", Value.arr
          [Value.obj [("kind", Value.str ("text")), ("text", Value.str ("hello"))]])])]) =
      Value.str (pyRepr (Value.obj [("result", Value.obj [("lastChunk", Value.bool true)]),
        ("artifact", Value.obj [("parts", Value.arr
          [Value.obj [("kind", Value.str ("text")), ("text", Value.str ("hello"))]])])])) :=
  top_level_artifact_ignored
    (Value.obj [("result", Value.obj [("lastChunk", Value.bool true)]),
        ("artifact", Value.obj [("parts", Value.arr
          [Value.obj [("kind", Value.str ("text")), ("text", Value.str ("hello"))]])])])
    rfl rfl

/-- Claim C5: for the update stream `[{working, "A"}, {complete, "B"}]`
the translation loop emits exactly three events in order: a working status
event with `final = false` and message "A"; an artifact event with
`append = false`, marked last chunk, carrying "B" as a named, described
text artifact; and a completed status event with `final = true` and no
message. -/
theorem translator_working_then_complete (cid tid : String) :
    executeLoop cid tid
      [{ is_task_complete := false, require_user_input := false, content := "A" },
       { is_task_complete := true, require_user_input := false, content := "B" }] =
      [ProtocolEvent.statusUpdate TaskState.working (some ("A")) false cid tid,
       ProtocolEvent.artifactUpdate false true ("current_result")
         ("Result of request to agent.") ("B") cid tid,
       ProtocolEvent.statusUpdate TaskState.completed none true cid tid] := by
  rfl

/-- Claim C6: the TaskState derived by the executors' branching is total
and determined by the two booleans alone, with the stated precedence: an
update requiring user input maps to `input_required` (even when also
complete), otherwise an incomplete update maps to `working` and a complete
one to `completed`; and every state is realized by some update. -/
theorem deriveTaskState_precedence (u : StreamUpdate) :
    (u.require_user_input = true → deriveTaskState u = TaskState.input_required) ∧
    (u.require_user_input = false → u.is_task_complete = false →
      deriveTaskState u = TaskState.working) ∧
    (u.require_user_input = false → u.is_task_complete = true →
      deriveTaskState u = TaskState.completed) ∧
    (∀ v : StreamUpdate, v.is_task_complete = u.is_task_complete →
      v.require_user_input = u.require_user_input →
      deriveTaskState v = deriveTaskState u) ∧
    (∀ s : TaskState, ∃ v : StreamUpdate, deriveTaskState v = s) := by
  obtain ⟨c, r, m⟩ := u
  refine ⟨?_, ?_, ?_, ?_, ?_⟩
  · intro hr
    subst hr
    cases c <;> rfl
  · intro hr hc
    subst hr
    subst hc
    rfl
  · intro hr hc
    subst hr
    subst hc
    rfl
  · intro v h1 h2
    obtain ⟨c2, r2, m2⟩ := v
    simp only at h1 h2
    subst h1
    subst h2
    rfl
  · intro s
    cases s with
    | working => exact ⟨⟨false, false, ""⟩, rfl⟩
    | input_required => exact ⟨⟨false, true, ""⟩, rfl⟩
    | completed => exact ⟨⟨true, false, ""⟩, rfl⟩

/-- Claim C6 witness: an update with both booleans true derives
`input_required`. -/
theorem deriveTaskState_precedence_witness :
    deriveTaskState ⟨true, true, "x"⟩ = TaskState.input_required :=
  (deriveTaskState_precedence ⟨true, true, "x"⟩).1 rfl

/-- Claim C7: for every chunk payload whose `result.lastChunk` is truthy
but in which no part of `result.artifact.parts` passes the text-part guard
(covering an absent or falsy artifact, an empty parts list, and text-kind
parts with blank or missing text), the extracted content is the string
serialization of the whole payload, which contains the literal substring
"lastChunk" and is never empty. -/
theorem extractContent_fallback_serialization
    (chunk : Value)
    (hlast : ((chunk.get ("result")).get ("lastChunk")).truthy = true)
    (hnone : ∀ q ∈ (((chunk.get ("result")).get ("artifact")).get ("parts")).asList,
        validTextPart q = false) :
    extractContent chunk = Value.str (pyRepr chunk) ∧
      ContainsSub (pyRepr chunk) ("lastChunk") ∧ pyRepr chunk ≠ "" := by
  have hres : (chunk.get ("result")).truthy = true := truthy_of_get_truthy hlast
  refine ⟨?_, containsSub_pyRepr_nested_key hlast, ?_⟩
  · have hfirst := firstTextValue_none hnone
    by_cases hart : ((chunk.get ("result")).get ("artifact")).truthy = true
    · simp only [extractContent, chunkStep, hres, hlast, hart, hfirst,
        Bool.and_self, if_true]
      simp [Value.truthy]
    · have hart2 : ((chunk.get ("result")).get ("artifact")).truthy = false := by
        simpa using hart
      simp only [extractContent, chunkStep, hres, hlast, hart2,
        Bool.and_self, if_true]
      simp [Value.truthy]
  · obtain ⟨kvs, hv, _⟩ := get_truthy_mem hres
    rw [hv]
    exact pyRepr_obj_ne_empty kvs

/-- Claim C7 witness: a last-chunk payload with no artifact extracts its
own serialization, which contains "lastChunk" and is non-empty. -/
theorem extractContent_fallback_serialization_witness :
    extractContent (Value.obj [("result", Value.obj [("lastChunk", Value.bool true)])]) =
      Value.str (pyRepr (Value.obj [("result", Value.obj [("lastChunk", Value.bool true)])])) ∧
    ContainsSub (pyRepr (Value.obj [("result", Value.obj [("lastChunk", Value.bool true)])]))
      ("lastChunk") ∧
    pyRepr (Value.obj [("result", Value.obj [("lastChunk", Value.bool true)])]) ≠ "" :=
  extractContent_fallback_serialization
    (Value.obj [("result", Value.obj [("lastChunk", Value.bool true)])])
    rfl (fun q hq => nomatch hq)

/-- Claim C8: a selection failure, and equally a selected id that is not
"WidgetsAgent", is surfaced as a single terminal status event requiring
user input whose message embeds the error text (for an unroutable id, the
text "Unknown agent_id: " followed by that id); whatever the downstream
transport would have yielded is irrelevant (the events do not depend on
`chunks` or `terr`, i.e. no transport call is made), the request is not
retried, and no completion or artifact event is emitted for a guessed
agent. -/
theorem selection_failure_single_terminal_event
    (cid tid e aid r : String) (chunks : List Value) (terr : Option String) :
    executeLoop cid tid (DirectorAgent.stream true (Except.error e) chunks terr) =
      [ProtocolEvent.statusUpdate TaskState.working
         (some ("Processing request...")) false cid tid,
       ProtocolEvent.statusUpdate TaskState.input_required
         (some ("Error processing request: " ++ e)) true cid tid] ∧
    (aid ≠ "WidgetsAgent" →
      executeLoop cid tid (DirectorAgent.stream true (Except.ok ⟨aid, r⟩) chunks terr) =
        [ProtocolEvent.statusUpdate TaskState.working
           (some ("Processing request...")) false cid tid,
         ProtocolEvent.statusUpdate TaskState.input_required
           (some ("Error processing request: " ++ ("Unknown agent_id: " ++ aid)))
           true cid tid]) := by
  constructor
  · rfl
  · intro h
    have hb : (aid == "WidgetsAgent") = false := by
      simpa using h
    simp [DirectorAgent.stream, hb, executeLoop, translateUpdate, workingUpdate,
      errorUpdate]

/-- Claim C8 witness: the unroutable id "UNKNOWN" yields the working event
followed by one terminal input-required event embedding the id. -/
theorem selection_failure_single_terminal_event_witness :
    executeLoop ("c") ("t")
        (DirectorAgent.stream true (Except.ok ⟨"UNKNOWN", "u"⟩) [] none) =
      [ProtocolEvent.statusUpdate TaskState.working
         (some ("Processing request...")) false ("c") ("t"),
       ProtocolEvent.statusUpdate TaskState.input_required
         (some ("Error processing request: " ++ ("Unknown agent_id: " ++ "UNKNOWN")))
         true ("c") ("t")] :=
  (selection_failure_single_terminal_event ("c") ("t") ("x") ("UNKNOWN") ("u") [] none).2
    (by decide)

/-- Claim C9: for every request context and event queue, both executors'
cancel operations fail with "cancel not supported", enqueue no events, and
never return successfully. -/
theorem cancel_always_rejected (context : RequestContext)
    (eventQueue : List ProtocolEvent) :
    DirectorAgentExecutor.cancel context eventQueue =
      (Except.error ("cancel not supported"), eventQueue) ∧
    MCPAgentExecutor.cancel context eventQueue =
      (Except.error ("cancel not supported"), eventQueue) ∧
    (∀ u q2, DirectorAgentExecutor.cancel context eventQueue ≠ (Except.ok u, q2)) ∧
    (∀ u q2, MCPAgentExecutor.cancel context eventQueue ≠ (Except.ok u, q2)) := by
  refine ⟨rfl, rfl, ?_, ?_⟩ <;>
    · intro u q2 h
      simp [DirectorAgentExecutor.cancel, MCPAgentExecutor.cancel] at h

/-- Claim C10: whenever the director agent is initialized, the first
update yielded by `DirectorAgent.stream` is the working update
`{false, false, "Processing request..."}`, regardless of the selection
outcome or the transport behaviour (so it is produced before selection is
attempted); and on every path — initialized or not, selection or transport
failing or not — the stream yields at least one update.  The embedding of
the generator is a total function, reflecting that the generator catches
every exception and never propagates one to its consumer. -/
theorem stream_yields_working_first (initialized : Bool)
    (selection : Except String AgentSelectionResult)
    (chunks : List Value) (transportError : Option String) :
    (initialized = true →
      (DirectorAgent.stream initialized selection chunks transportError).head? =
        some workingUpdate) ∧
    DirectorAgent.stream initialized selection chunks transportError ≠ [] := by
  constructor
  · intro h
    subst h
    rfl
  · cases initialized
    · simp [DirectorAgent.stream]
    · cases selection <;> simp [DirectorAgent.stream]

/-- Claim C10 witness: a concrete initialized run has the working update
first and a non-empty update stream. -/
theorem stream_yields_working_first_witness :
    (DirectorAgent.stream true (Except.ok ⟨"WidgetsAgent", "w"⟩) [] none).head? =
      some workingUpdate ∧
    DirectorAgent.stream true (Except.ok ⟨"WidgetsAgent", "w"⟩) [] none ≠ [] :=
  ⟨(stream_yields_working_first true (Except.ok ⟨"WidgetsAgent", "w"⟩) [] none).1 rfl,
   (stream_yields_working_first true (Except.ok ⟨"WidgetsAgent", "w"⟩) [] none).2⟩
